import Mathlib

/-!
Shallow embedding of the client-management web application (clients, tasks,
time tracking, invoices, reports).  Numeric document fields are modelled as
rationals, timestamps as integer milliseconds, and the remote document store
as a plain list of documents; a remote equality-filter query is modelled as
`List.filter` over that list.  Fallible remote calls are modelled by an
explicit `Except` outcome handed to the handler.  Definitions are translated
from the TypeScript sources; theorems relate them to the specified behaviour.
-/

/-! ## Report utilities (CSV / PDF export helpers) -/

namespace ReportUtils

/-- A client record as used by the report helpers: `{ id, name }`. -/
structure Client where
  id : String
  name : String
deriving DecidableEq, Repr

/-- `getClientNameById` from the report utilities: find the client whose `id`
matches and return its `name`, else the text `Unknown Client`. -/
def getClientNameById (clients : List Client) (clientId : String) : String :=
  match clients.find? (fun c => c.id == clientId) with
  | some client => client.name
  | none => "Unknown Client"

/-- A CSV row: the fields of one exported record, in key order, where a value
is the string form of the record field (`none` models `null`/`undefined`). -/
def Row : Type := List (String × Option String)

/-- Reading `row[header]` in the export loop: an absent key and a `null`
value both behave as missing (they are later replaced by the empty string). -/
def rowGet (row : Row) (key : String) : Option String :=
  (List.find? (fun p => p.1 == key) row).bind (fun p => p.2)

/-- One CSV field of `exportToCSV`: `String(value ?? '')`, wrapped in double
quotes with inner quotes doubled when it contains a comma, a double quote or
a newline. -/
def csvField (value : Option String) : String :=
  let stringValue := value.getD ""
  if stringValue.toList.contains ',' || stringValue.toList.contains '"' ||
      stringValue.toList.contains '\n' then
    "\"" ++ stringValue.replace ("\"") ("\"\"") ++ "\""
  else
    stringValue

/-- `exportToCSV`: for an empty array no content is produced; otherwise the
content is the comma-joined keys of the first record followed by one line per
record, fields in header order, joined with newlines. -/
def exportToCSV (data : List Row) : Option String :=
  match data with
  | [] => none
  | firstRow :: _ =>
    let headers := firstRow.map (fun p => p.1)
    some (String.intercalate "\n"
      ((String.intercalate "," headers) ::
        data.map (fun row =>
          String.intercalate "," (headers.map (fun k => csvField (rowGet row k))))))

/-- An invoice as used by `generateInvoicesHTML` (report utilities). -/
structure Invoice where
  id : String
  userId : String
  clientId : String
  amount : ℚ
  status : String
deriving DecidableEq, Repr

/-- The `getClientName` helper defined inside `generateInvoicesHTML` (and the
other HTML generators of the report utilities): it falls back to `Unknown`,
not `Unknown Client`. -/
def htmlGetClientName (clients : List Client) (clientId : String) : String :=
  match clients.find? (fun c => c.id == clientId) with
  | some client => client.name
  | none => "Unknown"

/-- `totalAmount` in `generateInvoicesHTML`: `reduce` of the `amount` fields. -/
def totalAmount (invoices : List Invoice) : ℚ :=
  invoices.foldl (fun sum inv => sum + inv.amount) 0

/-- One step of building the `clientInvoices` object in
`generateInvoicesHTML`: create the entry `{ total: 0, amount: 0 }` on first
sight of a `clientId`, then increment `total` and add the invoice amount.
The JavaScript object is modelled as an association list where a new key is
appended at the end. -/
def bumpInvoice (m : List (String × (ℕ × ℚ))) (k : String) (amount : ℚ) :
    List (String × (ℕ × ℚ)) :=
  match m with
  | [] => [(k, (1, amount))]
  | p :: rest =>
    if p.1 == k then (p.1, (p.2.1 + 1, p.2.2 + amount)) :: rest
    else p :: bumpInvoice rest k amount

/-- The `clientInvoices` grouping of `generateInvoicesHTML`: per-client
invoice count and summed amount. -/
def clientInvoices (invoices : List Invoice) : List (String × (ℕ × ℚ)) :=
  invoices.foldl (fun m inv => bumpInvoice m inv.clientId inv.amount) []

end ReportUtils

/-! ## TimeTrackingReport component -/

namespace TimeReport

/-- A time entry as consumed by the `TimeTrackingReport` component. -/
structure TimeEntry where
  id : String
  userId : String
  clientId : String
  hours : ℚ
deriving DecidableEq, Repr

/-- `totalHours` of `calculateReport`: `reduce` of the `hours` fields. -/
def totalHours (timeEntries : List TimeEntry) : ℚ :=
  timeEntries.foldl (fun sum entry => sum + entry.hours) 0

/-- One step of building the `clientHours` object of `calculateReport`:
`clientHours[entry.clientId] = (clientHours[entry.clientId] || 0) + entry.hours`. -/
def bumpHours (m : List (String × ℚ)) (k : String) (v : ℚ) : List (String × ℚ) :=
  match m with
  | [] => [(k, v)]
  | p :: rest =>
    if p.1 == k then (p.1, p.2 + v) :: rest
    else p :: bumpHours rest k v

/-- The `clientHours` grouping of `calculateReport`; `hoursByClient` is its
entry list. -/
def clientHours (timeEntries : List TimeEntry) : List (String × ℚ) :=
  timeEntries.foldl (fun m entry => bumpHours m entry.clientId entry.hours) []

/-- The `getClientName` helper of `TimeTrackingReport`: falls back to
`Unknown Client`. -/
def getClientName (clients : List ReportUtils.Client) (clientId : String) : String :=
  match clients.find? (fun c => c.id == clientId) with
  | some client => client.name
  | none => "Unknown Client"

end TimeReport

/-! ## TasksReport component -/

namespace TasksReportC

/-- The task status union type `'pending' | 'completed'` of `TasksReport`. -/
inductive TaskStatus where
  | pending : TaskStatus
  | completed : TaskStatus
deriving DecidableEq, Repr

/-- Whether a status is `completed`. -/
def isCompleted : TaskStatus → Bool
  | TaskStatus.completed => true
  | TaskStatus.pending => false

/-- Whether a status is `pending`. -/
def isPending : TaskStatus → Bool
  | TaskStatus.pending => true
  | TaskStatus.completed => false

/-- A task as consumed by the `TasksReport` component. -/
structure Task where
  id : String
  userId : String
  clientId : String
  status : TaskStatus
deriving DecidableEq, Repr

/-- `clientTasks[task.clientId][task.status]++` on a `(completed, pending)`
counter pair. -/
def incrStatus (cp : ℕ × ℕ) : TaskStatus → ℕ × ℕ
  | TaskStatus.completed => (cp.1 + 1, cp.2)
  | TaskStatus.pending => (cp.1, cp.2 + 1)

/-- One step of building the `clientTasks` object of `getTasksByClient`:
create `{ completed: 0, pending: 0 }` on first sight of a `clientId`, then
increment the counter named by the task status. -/
def bumpTask (m : List (String × (ℕ × ℕ))) (k : String) (st : TaskStatus) :
    List (String × (ℕ × ℕ)) :=
  match m with
  | [] => [(k, incrStatus (0, 0) st)]
  | p :: rest =>
    if p.1 == k then (p.1, incrStatus p.2 st) :: rest
    else p :: bumpTask rest k st

/-- The `clientTasks` grouping of `getTasksByClient`. -/
def clientTasks (tasks : List Task) : List (String × (ℕ × ℕ)) :=
  tasks.foldl (fun m task => bumpTask m task.clientId task.status) []

/-- Looking a client up in the grouping; a key that was never inserted reads
as the initial `{ completed: 0, pending: 0 }`. -/
def getPair (m : List (String × (ℕ × ℕ))) (k : String) : ℕ × ℕ :=
  match m.find? (fun p => p.1 == k) with
  | some p => p.2
  | none => (0, 0)

end TasksReportC

/-! ## Invoices page -/

namespace InvoicesPage

/-- A line item of an invoice. -/
structure InvoiceItem where
  description : String
  quantity : ℚ
  rate : ℚ
  amount : ℚ
deriving DecidableEq, Repr

/-- An invoice document as held in the invoices page state. -/
structure Invoice where
  id : String
  userId : String
  invoiceNumber : String
  clientId : String
  clientName : Option String
  items : List InvoiceItem
  total : ℚ
  status : String
  dueDate : ℤ
  createdAt : ℤ
deriving DecidableEq, Repr

/-- A client document of the `clients` collection as fetched by the invoices
page (`{ id, ...doc.data() }`). -/
structure Client where
  id : String
  userId : String
  name : String
  email : String
deriving DecidableEq, Repr

/-- `fetchInvoices`: the remote query
`where('userId', '==', user.uid)` over the `invoices` collection; the
returned documents are put into the `invoices` state. -/
def fetchInvoices (remote : List Invoice) (uid : String) : List Invoice :=
  remote.filter (fun d => d.userId == uid)

/-- `fetchClients` of the invoices page: the remote query
`where('userId', '==', user.uid)` over the `clients` collection. -/
def fetchClients (remote : List Client) (uid : String) : List Client :=
  remote.filter (fun d => d.userId == uid)

/-- The UI state of the invoices page that the filter effect touches. -/
structure PageState where
  invoices : List Invoice
  filteredInvoices : List Invoice
  clients : List Client
  isLoading : Bool
  searchText : String
  statusFilter : String
  clientFilter : String
deriving Repr

/-- JavaScript `String.prototype.includes`: the needle occurs contiguously
somewhere in the haystack. -/
def jsIncludes (haystack needle : String) : Bool :=
  decide (List.IsInfix needle.toList haystack.toList)

/-- The search predicate of the filter effect:
`inv.invoiceNumber.toLowerCase().includes(q)` or
`inv.clientName?.toLowerCase().includes(q)` (an absent `clientName` is
falsy). -/
def matchesSearch (inv : Invoice) (searchText : String) : Bool :=
  jsIncludes inv.invoiceNumber.toLower searchText.toLower ||
    (match inv.clientName with
     | some n => jsIncludes n.toLower searchText.toLower
     | none => false)

/-- The body of the filter `useEffect`: start from a copy of `invoices` and
successively apply the status filter, the client filter and the search
filter, each one only when active. -/
def computeFiltered (statusFilter clientFilter searchText : String)
    (invoices : List Invoice) : List Invoice :=
  let f1 := if statusFilter ≠ "all"
    then invoices.filter (fun inv => inv.status == statusFilter)
    else invoices
  let f2 := if clientFilter ≠ "all"
    then f1.filter (fun inv => inv.clientId == clientFilter)
    else f1
  if searchText ≠ ""
    then f2.filter (fun inv => matchesSearch inv searchText)
    else f2

/-- The filter `useEffect` as a state transformer: it recomputes
`filteredInvoices` from `invoices` and the three filter controls and stores
the result with `setFilteredInvoices`. -/
def filterEffect (s : PageState) : PageState :=
  { s with filteredInvoices :=
      computeFiltered s.statusFilter s.clientFilter s.searchText s.invoices }

/-- JavaScript `parseInt` on a string: skip leading whitespace, read an
optional sign and then a maximal run of decimal digits; `none` models `NaN`. -/
def jsParseInt (s : String) : Option ℤ :=
  let cs := s.toList.dropWhile (fun c => c.isWhitespace)
  let signAndRest : ℤ × List Char :=
    match cs with
    | '-' :: t => (-1, t)
    | '+' :: t => (1, t)
    | t => (1, t)
  let digits := signAndRest.2.takeWhile (fun c => c.isDigit)
  if digits.isEmpty then none
  else some (signAndRest.1 * (digits.foldl (fun n c => 10 * n + (c.toNat - 48)) 0 : ℕ))

/-- JavaScript `String.prototype.split` with a one-character separator,
on the character list of the string. -/
def splitChars (sep : Char) : List Char → List (List Char)
  | [] => [[]]
  | c :: rest =>
    if c = sep then [] :: splitChars sep rest
    else
      match splitChars sep rest with
      | [] => [[c]]
      | g :: gs => (c :: g) :: gs

/-- JavaScript `s.split(sep)` for a one-character separator. -/
def jsSplit (s : String) (sep : Char) : List String :=
  (splitChars sep s.toList).map (fun g => String.mk g)

/-- `parseInt(inv.invoiceNumber.split('-')[1])`: `none` when the split has no
second component or when `parseInt` yields `NaN`. -/
def numericSuffix (inv : Invoice) : Option ℤ :=
  ((jsSplit inv.invoiceNumber '-')[1]?).bind jsParseInt

/-- One step of the `maxNumber` reduction of `generateInvoiceNumber`:
`num > max ? num : max`, where a `NaN` comparison is false, so an
unparseable suffix leaves the accumulator unchanged. -/
def maxStep (max : ℤ) (inv : Invoice) : ℤ :=
  match numericSuffix inv with
  | some num => if num > max then num else max
  | none => max

/-- The `maxNumber` reduction of `generateInvoiceNumber`, starting from 0. -/
def maxNumber (invoices : List Invoice) : ℤ :=
  invoices.foldl maxStep 0

/-- `String.prototype.padStart(n, c)`. -/
def padStart (s : String) (n : ℕ) (c : Char) : String :=
  if n ≤ s.length then s
  else String.mk (List.replicate (n - s.length) c) ++ s

/-- `generateInvoiceNumber`: `INV-` followed by the zero-padded successor of
`maxNumber`. -/
def generateInvoiceNumber (invoices : List Invoice) : String :=
  "INV-" ++ padStart (toString (maxNumber invoices + 1)) 4 '0'

/-- A raw line item of the invoice form (`values.items`). -/
structure RawItem where
  description : String
  quantity : ℚ
  rate : ℚ
deriving DecidableEq, Repr

/-- The line-item computation of `handleSubmit`:
`amount: item.quantity * item.rate`. -/
def submitItems (values : List RawItem) : List InvoiceItem :=
  values.map (fun item =>
    { description := item.description
      quantity := item.quantity
      rate := item.rate
      amount := item.quantity * item.rate })

/-- The total computation of `handleSubmit`:
`items.reduce((sum, item) => sum + item.amount, 0)`. -/
def submitTotal (items : List InvoiceItem) : ℚ :=
  items.foldl (fun sum item => sum + item.amount) 0

/-- `fetchInvoices` as an effect on the page state, parameterised by the
outcome of the remote call: on success the fetched documents replace
`invoices` and `filteredInvoices`; on failure the error is caught, a
notification is surfaced and no list state is touched. -/
def fetchInvoicesRun (result : Except String (List Invoice)) (s : PageState) :
    PageState × Option String :=
  match result with
  | Except.ok docs =>
    ({ s with invoices := docs, filteredInvoices := docs, isLoading := false }, none)
  | Except.error _ =>
    ({ s with isLoading := false }, some ("Failed to fetch invoices"))

/-- `fetchClients` of the invoices page as an effect on the page state. -/
def fetchClientsRun (result : Except String (List Client)) (s : PageState) :
    PageState × Option String :=
  match result with
  | Except.ok docs => ({ s with clients := docs }, none)
  | Except.error _ => (s, some ("Failed to fetch clients"))

/-- `handleDelete` as an effect on the page state: `deleteDoc` either
succeeds (a success notification; the list is refreshed by a separate
`fetchInvoices` call) or throws, in which case only an error notification is
surfaced. -/
def handleDeleteRun (result : Except String Unit) (s : PageState) :
    PageState × Option String :=
  match result with
  | Except.ok _ => (s, some ("Invoice deleted successfully"))
  | Except.error _ => (s, some ("Failed to delete invoice"))

/-- The remote write of `handleSubmit` as an effect on the page state: on
failure the error is caught, a notification is surfaced and the list state
is untouched. -/
def handleSubmitRun (editing : Bool) (result : Except String Unit) (s : PageState) :
    PageState × Option String :=
  match result with
  | Except.ok _ =>
    ({ s with isLoading := false },
      some (if editing then "Invoice updated successfully" else "Invoice created successfully"))
  | Except.error _ =>
    ({ s with isLoading := false }, some ("Failed to save invoice"))

end InvoicesPage

/-! ## Time-tracking page -/

namespace TimeTrackingPage

/-- A document of the `clients` collection. -/
structure ClientDoc where
  id : String
  userId : String
  name : String
deriving DecidableEq, Repr

/-- A document of the `tasks` collection. -/
structure TaskDoc where
  id : String
  userId : String
  title : String
  clientId : String
deriving DecidableEq, Repr

/-- The `Client` record held in the page state: `{ id, name }`. -/
structure Client where
  id : String
  name : String
deriving DecidableEq, Repr

/-- The `Task` record held in the page state: `{ id, title, clientId }`. -/
structure Task where
  id : String
  title : String
  clientId : String
deriving DecidableEq, Repr

/-- A document of the `timeTracking` collection. -/
structure TimeEntryDoc where
  id : String
  userId : String
  taskId : String
  clientId : String
  startTime : ℤ
  endTime : Option ℤ
  duration : Option ℤ
  notes : Option String
deriving DecidableEq, Repr

/-- `fetchClients` of the time-tracking page: `getDocs(collection(db,
'clients'))` with no `where` clause — every document of the collection is
mapped into the page state (`name: doc.data().name || 'Unknown'`). -/
def fetchClients (remote : List ClientDoc) : List Client :=
  remote.map (fun d =>
    { id := d.id, name := if d.name == "" then "Unknown" else d.name })

/-- `fetchTasks` of the time-tracking page: `getDocs(collection(db,
'tasks'))` with no `where` clause — every document of the collection is
mapped into the page state. -/
def fetchTasks (remote : List TaskDoc) : List Task :=
  remote.map (fun d =>
    { id := d.id
      title := if d.title == "" then "Unknown" else d.title
      clientId := d.clientId })

/-- `fetchTimeEntries`: the remote query `where('userId', '==', user.uid)`
over the `timeTracking` collection. -/
def fetchTimeEntries (remote : List TimeEntryDoc) (uid : String) : List TimeEntryDoc :=
  remote.filter (fun d => d.userId == uid)

/-- A `timeTracking` document as written by `handleAddEntry`. -/
structure StoredTimeEntry where
  taskId : String
  clientId : String
  startTime : ℤ
  endTime : ℤ
  duration : ℤ
  notes : String
  userId : String
deriving DecidableEq, Repr

/-- `handleAddEntry`: compute
`duration = Math.floor((end.getTime() - start.getTime()) / 60000)`; when the
duration is not strictly positive report `End time must be after start time`
and store nothing, otherwise append the new document to the `timeTracking`
collection and report success.  Times are in milliseconds. -/
def handleAddEntry (taskId clientId : String) (startTime endTime : ℤ)
    (notes : Option String) (uid : String) (remote : List StoredTimeEntry) :
    List StoredTimeEntry × String :=
  let duration := Int.fdiv (endTime - startTime) 60000
  if duration ≤ 0 then
    (remote, "End time must be after start time")
  else
    (remote ++
      [{ taskId := taskId
         clientId := clientId
         startTime := startTime
         endTime := endTime
         duration := duration
         notes := notes.getD ""
         userId := uid }],
      "Entry added successfully")

end TimeTrackingPage

/-! ## Dashboard page -/

namespace DashboardPage

/-- A document of the `timeTracking` collection as read by the dashboard:
`data.hours` may be missing (`data.hours || 0` contributes 0). -/
structure TimeLogDoc where
  id : String
  userId : String
  hours : Option ℚ
  date : ℤ
deriving DecidableEq, Repr

/-- A document of the `invoices` collection as read by the dashboard:
`data.total` may be missing (`data.total || 0` contributes 0). -/
structure InvoiceDoc where
  id : String
  userId : String
  total : Option ℚ
  status : String
deriving DecidableEq, Repr

/-- JavaScript `Math.round`: round half toward positive infinity,
`Math.round(x) = Math.floor(x + 0.5)`. -/
def jsRound (x : ℚ) : ℤ :=
  Int.floor (x + 1 / 2)

/-- The hours-tracked computation of `fetchDashboardData`: query the
`timeTracking` collection with `where('userId', '==', userId)`, keep the
documents whose `date` is on or after the start of the current month, and
`reduce`-sum `data.hours || 0`. -/
def hoursTrackedRaw (remote : List TimeLogDoc) (userId : String)
    (startOfMonth : ℤ) : ℚ :=
  (((remote.filter (fun d => d.userId == userId)).filter
      (fun d => decide (startOfMonth ≤ d.date))).foldl
    (fun sum d => sum + d.hours.getD 0) 0)

/-- The `hoursTracked` statistic put into the dashboard state:
`Math.round(hoursTracked * 10) / 10`. -/
def hoursTrackedStat (remote : List TimeLogDoc) (userId : String)
    (startOfMonth : ℤ) : ℚ :=
  (jsRound (hoursTrackedRaw remote userId startOfMonth * 10) : ℚ) / 10

/-- The `pendingInvoicesAmount` statistic of `fetchDashboardData`: query the
`invoices` collection with `where('userId', '==', userId)` and
`where('status', '==', 'unpaid')` and `reduce`-sum `data.total || 0`. -/
def pendingInvoicesAmount (remote : List InvoiceDoc) (userId : String) : ℚ :=
  (remote.filter (fun d => d.userId == userId && d.status == "unpaid")).foldl
    (fun sum d => sum + d.total.getD 0) 0

end DashboardPage

/-! ## Helper lemmas -/

/-- A `reduce((sum, x) => sum + f(x), a)` is `a` plus the sum of the mapped
list. -/
theorem foldl_add_map_sum {α : Type} (f : α → ℚ) :
    ∀ (l : List α) (a : ℚ), l.foldl (fun s x => s + f x) a = a + (l.map f).sum := by
  intro l
  induction l with
  | nil => intro a; simp
  | cons x t ih => intro a; simp [ih, add_assoc]

/-! ## C2 -/

/-- C2 (counterexample): the client-name lookup defined inside
`generateInvoicesHTML` returns `Unknown`, not `Unknown Client`, for a
dangling `clientId`. -/
theorem htmlGetClientName_dangling_is_not_unknown_client :
    ReportUtils.htmlGetClientName [] "c1" = "Unknown" ∧
    ReportUtils.htmlGetClientName [] "c1" ≠ "Unknown Client" := by
  constructor
  · rfl
  · decide

/-- C2 (amended): `getClientNameById` and the report components' client-name
lookups return `Unknown Client` when no loaded client has the given id and
the (first) matching client's name otherwise; the lookups defined inside the
PDF HTML generators return `Unknown` instead of `Unknown Client` on a
dangling id. -/
theorem clientName_lookup_fallback :
    (∀ (clients : List ReportUtils.Client) (cid : String),
      (∀ c ∈ clients, c.id ≠ cid) →
        ReportUtils.getClientNameById clients cid = "Unknown Client") ∧
    (∀ (clients : List ReportUtils.Client) (cid : String) (c : ReportUtils.Client),
      clients.find? (fun c => c.id == cid) = some c →
        ReportUtils.getClientNameById clients cid = c.name) ∧
    (∀ (clients : List ReportUtils.Client) (cid : String),
      (∀ c ∈ clients, c.id ≠ cid) →
        TimeReport.getClientName clients cid = "Unknown Client") ∧
    (∀ (clients : List ReportUtils.Client) (cid : String) (c : ReportUtils.Client),
      clients.find? (fun c => c.id == cid) = some c →
        TimeReport.getClientName clients cid = c.name) ∧
    (∀ (clients : List ReportUtils.Client) (cid : String),
      (∀ c ∈ clients, c.id ≠ cid) →
        ReportUtils.htmlGetClientName clients cid = "Unknown") ∧
    (∀ (clients : List ReportUtils.Client) (cid : String) (c : ReportUtils.Client),
      clients.find? (fun c => c.id == cid) = some c →
        ReportUtils.htmlGetClientName clients cid = c.name) := by
  refine ⟨?_, ?_, ?_, ?_, ?_, ?_⟩
  · intro clients cid h
    have hf : clients.find? (fun c => c.id == cid) = none :=
      List.find?_eq_none.mpr (fun c hc => by simpa using h c hc)
    simp [ReportUtils.getClientNameById, hf]
  · intro clients cid c hf
    simp [ReportUtils.getClientNameById, hf]
  · intro clients cid h
    have hf : clients.find? (fun c => c.id == cid) = none :=
      List.find?_eq_none.mpr (fun c hc => by simpa using h c hc)
    simp [TimeReport.getClientName, hf]
  · intro clients cid c hf
    simp [TimeReport.getClientName, hf]
  · intro clients cid h
    have hf : clients.find? (fun c => c.id == cid) = none :=
      List.find?_eq_none.mpr (fun c hc => by simpa using h c hc)
    simp [ReportUtils.htmlGetClientName, hf]
  · intro clients cid c hf
    simp [ReportUtils.htmlGetClientName, hf]

/-- C2 (witness): the fallback and the lookup evaluated on concrete inputs. -/
theorem clientName_lookup_fallback_witness :
    ReportUtils.getClientNameById [] "x" = "Unknown Client" ∧
    ReportUtils.htmlGetClientName [{ id := "a", name := "Acme" }] "a" = "Acme" :=
  ⟨clientName_lookup_fallback.1 [] "x" (by simp),
   clientName_lookup_fallback.2.2.2.2.2 [{ id := "a", name := "Acme" }] "a"
     { id := "a", name := "Acme" } (by decide)⟩

/-! ## C6 -/

/-- C6: `exportToCSV` produces no content for an empty array; for a
non-empty array the content is the comma-joined keys of the first record
followed by one line per record holding the records' values in that key
order, where a field is quoted, with inner double quotes doubled, exactly
when its string form contains a comma, a double quote or a newline, and a
missing (`null`/`undefined`) value becomes the empty string. -/
theorem exportToCSV_spec :
    ReportUtils.exportToCSV [] = none ∧
    (∀ (firstRow : ReportUtils.Row) (rest : List ReportUtils.Row),
      ReportUtils.exportToCSV (firstRow :: rest) =
        some (String.intercalate "\n"
          ((String.intercalate "," (firstRow.map (fun p => p.1))) ::
            (firstRow :: rest).map (fun row =>
              String.intercalate ","
                ((firstRow.map (fun p => p.1)).map
                  (fun k => ReportUtils.csvField (ReportUtils.rowGet row k))))))) ∧
    (∀ s : String,
      ReportUtils.csvField (some s) =
        if s.toList.contains ',' || s.toList.contains '"' || s.toList.contains '\n'
        then "\"" ++ s.replace ("\"") ("\"\"") ++ "\""
        else s) ∧
    ReportUtils.csvField none = "" := by
  refine ⟨rfl, fun firstRow rest => rfl, fun s => rfl, by decide⟩

/-! ## C7 -/

/-- C7: for every handler of the invoices page parameterised by a failing
remote outcome, the error is caught, a notification is surfaced and the
local list state (`invoices`, `filteredInvoices`, `clients`) is left
unchanged. -/
theorem error_paths_leave_lists_unchanged :
    ∀ (e : String) (s : InvoicesPage.PageState),
      ((InvoicesPage.fetchInvoicesRun (Except.error e) s).1.invoices = s.invoices ∧
        (InvoicesPage.fetchInvoicesRun (Except.error e) s).1.filteredInvoices =
          s.filteredInvoices ∧
        (InvoicesPage.fetchInvoicesRun (Except.error e) s).1.clients = s.clients ∧
        (InvoicesPage.fetchInvoicesRun (Except.error e) s).2 =
          some ("Failed to fetch invoices")) ∧
      ((InvoicesPage.fetchClientsRun (Except.error e) s).1 = s ∧
        (InvoicesPage.fetchClientsRun (Except.error e) s).2 =
          some ("Failed to fetch clients")) ∧
      ((InvoicesPage.handleDeleteRun (Except.error e) s).1 = s ∧
        (InvoicesPage.handleDeleteRun (Except.error e) s).2 =
          some ("Failed to delete invoice")) ∧
      (∀ editing : Bool,
        (InvoicesPage.handleSubmitRun editing (Except.error e) s).1.invoices = s.invoices ∧
        (InvoicesPage.handleSubmitRun editing (Except.error e) s).1.filteredInvoices =
          s.filteredInvoices ∧
        (InvoicesPage.handleSubmitRun editing (Except.error e) s).1.clients = s.clients ∧
        (InvoicesPage.handleSubmitRun editing (Except.error e) s).2 =
          some ("Failed to save invoice")) := by
  intro e s
  exact ⟨⟨rfl, rfl, rfl, rfl⟩, ⟨rfl, rfl⟩, ⟨rfl, rfl⟩, fun _ => ⟨rfl, rfl, rfl, rfl⟩⟩

/-! ## C8 -/

/-- C8: `handleSubmit` stores each line item with
`amount = quantity * rate` and a total equal to the sum of the item amounts,
so the stored total is fully determined by the `(quantity, rate)` pairs of
the submitted form. -/
theorem submit_total_derived :
    (∀ (values : List InvoicesPage.RawItem) (item : InvoicesPage.InvoiceItem),
      item ∈ InvoicesPage.submitItems values → item.amount = item.quantity * item.rate) ∧
    (∀ values : List InvoicesPage.RawItem,
      InvoicesPage.submitTotal (InvoicesPage.submitItems values) =
        (values.map (fun v => v.quantity * v.rate)).sum) ∧
    (∀ v1 v2 : List InvoicesPage.RawItem,
      v1.map (fun v => (v.quantity, v.rate)) = v2.map (fun v => (v.quantity, v.rate)) →
        InvoicesPage.submitTotal (InvoicesPage.submitItems v1) =
          InvoicesPage.submitTotal (InvoicesPage.submitItems v2)) := by
  have total_eq : ∀ values : List InvoicesPage.RawItem,
      InvoicesPage.submitTotal (InvoicesPage.submitItems values) =
        (values.map (fun v => v.quantity * v.rate)).sum := by
    intro values
    simp only [InvoicesPage.submitTotal, InvoicesPage.submitItems,
      foldl_add_map_sum (fun item : InvoicesPage.InvoiceItem => item.amount),
      List.map_map, zero_add]
    rfl
  refine ⟨?_, total_eq, ?_⟩
  · intro values item hmem
    simp only [InvoicesPage.submitItems, List.mem_map] at hmem
    obtain ⟨r, _, rfl⟩ := hmem
    rfl
  · intro v1 v2 h
    have e : ∀ v : List InvoicesPage.RawItem,
        (v.map (fun r => r.quantity * r.rate)) =
          (v.map (fun r => (r.quantity, r.rate))).map (fun p => p.1 * p.2) := by
      intro v
      simp [List.map_map, Function.comp]
    rw [total_eq, total_eq, e, e, h]

/-- C8 (witness): a concrete submitted form. -/
theorem submit_total_derived_witness :
    ({ description := "work", quantity := 2, rate := 3, amount := 2 * 3 } :
        InvoicesPage.InvoiceItem).amount =
      ({ description := "work", quantity := 2, rate := 3, amount := 2 * 3 } :
        InvoicesPage.InvoiceItem).quantity *
      ({ description := "work", quantity := 2, rate := 3, amount := 2 * 3 } :
        InvoicesPage.InvoiceItem).rate ∧
    InvoicesPage.submitTotal
        (InvoicesPage.submitItems [{ description := "work", quantity := 2, rate := 3 }]) =
      InvoicesPage.submitTotal
        (InvoicesPage.submitItems [{ description := "other", quantity := 2, rate := 3 }]) :=
  ⟨submit_total_derived.1 [{ description := "work", quantity := 2, rate := 3 }]
      { description := "work", quantity := 2, rate := 3, amount := 2 * 3 }
      (by simp [InvoicesPage.submitItems]),
   submit_total_derived.2.2 [{ description := "work", quantity := 2, rate := 3 }]
      [{ description := "other", quantity := 2, rate := 3 }] (by simp)⟩

/-! ## C10 -/

/-- C10: `handleAddEntry` computes the duration as the floored whole-minute
difference between end and start time, stores a new document exactly when it
is strictly positive (with that duration), and otherwise reports
`End time must be after start time` and stores nothing. -/
theorem handleAddEntry_spec :
    ∀ (taskId clientId : String) (startTime endTime : ℤ) (notes : Option String)
      (uid : String) (remote : List TimeTrackingPage.StoredTimeEntry),
      (Int.fdiv (endTime - startTime) 60000 ≤ 0 →
        TimeTrackingPage.handleAddEntry taskId clientId startTime endTime notes uid remote =
          (remote, "End time must be after start time")) ∧
      (0 < Int.fdiv (endTime - startTime) 60000 →
        TimeTrackingPage.handleAddEntry taskId clientId startTime endTime notes uid remote =
          (remote ++
            [{ taskId := taskId
               clientId := clientId
               startTime := startTime
               endTime := endTime
               duration := Int.fdiv (endTime - startTime) 60000
               notes := notes.getD ""
               userId := uid }],
            "Entry added successfully")) ∧
      ((TimeTrackingPage.handleAddEntry taskId clientId startTime endTime notes uid
          remote).1 = remote ↔
        Int.fdiv (endTime - startTime) 60000 ≤ 0) := by
  intro taskId clientId startTime endTime notes uid remote
  refine ⟨?_, ?_, ?_⟩
  · intro h
    simp [TimeTrackingPage.handleAddEntry, h]
  · intro h
    have h2 : ¬ (Int.fdiv (endTime - startTime) 60000 ≤ 0) := not_le.mpr h
    simp [TimeTrackingPage.handleAddEntry, h2]
  · by_cases h : Int.fdiv (endTime - startTime) 60000 ≤ 0
    · simp [TimeTrackingPage.handleAddEntry, h]
    · simp [TimeTrackingPage.handleAddEntry, h]

/-- C10 (witness): a one-minute entry is stored, with duration 1. -/
theorem handleAddEntry_spec_witness :
    TimeTrackingPage.handleAddEntry "t" "c" 0 60000 none "u" [] =
      ([{ taskId := "t"
          clientId := "c"
          startTime := 0
          endTime := 60000
          duration := Int.fdiv (60000 - 0) 60000
          notes := (none : Option String).getD ""
          userId := "u" }],
        "Entry added successfully") :=
  (handleAddEntry_spec "t" "c" 0 60000 none "u" []).2.1 (by decide)

/-! ## C4 -/

/-- Updating one key of the `clientHours` object adds its increment to the
sum of the values. -/
theorem bumpHours_snd_sum (k : String) (v : ℚ) :
    ∀ m : List (String × ℚ),
      ((TimeReport.bumpHours m k v).map Prod.snd).sum = (m.map Prod.snd).sum + v := by
  intro m
  induction m with
  | nil => simp [TimeReport.bumpHours]
  | cons p rest ih =>
    by_cases h : p.1 == k
    · simp [TimeReport.bumpHours, h]
      ring
    · simp [TimeReport.bumpHours, h, ih]
      ring

/-- Folding entries into the `clientHours` object adds their hours to the
sum of the values. -/
theorem clientHours_sum_aux :
    ∀ (l : List TimeReport.TimeEntry) (m : List (String × ℚ)),
      (((l.foldl (fun m entry => TimeReport.bumpHours m entry.clientId entry.hours) m)).map
          Prod.snd).sum =
        (m.map Prod.snd).sum + (l.map (fun e => e.hours)).sum := by
  intro l
  induction l with
  | nil => intro m; simp
  | cons e t ih =>
    intro m
    simp only [List.foldl_cons, ih, bumpHours_snd_sum, List.map_cons, List.sum_cons]
    ring

/-- Updating one key of the `clientInvoices` object adds 1 to the sum of the
counts and the invoice amount to the sum of the amounts. -/
theorem bumpInvoice_sums (k : String) (a : ℚ) :
    ∀ m : List (String × (ℕ × ℚ)),
      ((ReportUtils.bumpInvoice m k a).map (fun p => p.2.1)).sum =
          (m.map (fun p => p.2.1)).sum + 1 ∧
        ((ReportUtils.bumpInvoice m k a).map (fun p => p.2.2)).sum =
          (m.map (fun p => p.2.2)).sum + a := by
  intro m
  induction m with
  | nil => simp [ReportUtils.bumpInvoice]
  | cons p rest ih =>
    by_cases h : p.1 == k
    · constructor
      · simp [ReportUtils.bumpInvoice, h]
        ring
      · simp [ReportUtils.bumpInvoice, h]
        ring
    · constructor
      · simp [ReportUtils.bumpInvoice, h, ih.1]
        ring
      · simp [ReportUtils.bumpInvoice, h, ih.2]
        ring

/-- Folding invoices into the `clientInvoices` object adds their count and
their amounts to the sums over the object. -/
theorem clientInvoices_sums_aux :
    ∀ (l : List ReportUtils.Invoice) (m : List (String × (ℕ × ℚ))),
      (((l.foldl (fun m inv => ReportUtils.bumpInvoice m inv.clientId inv.amount) m)).map
          (fun p => p.2.1)).sum =
          (m.map (fun p => p.2.1)).sum + l.length ∧
        (((l.foldl (fun m inv => ReportUtils.bumpInvoice m inv.clientId inv.amount) m)).map
          (fun p => p.2.2)).sum =
          (m.map (fun p => p.2.2)).sum + (l.map (fun i => i.amount)).sum := by
  intro l
  induction l with
  | nil => intro m; simp
  | cons inv t ih =>
    intro m
    constructor
    · simp only [List.foldl_cons, (ih _).1, (bumpInvoice_sums _ _ _).1, List.length_cons]
      ring
    · simp only [List.foldl_cons, (ih _).2, (bumpInvoice_sums _ _ _).2, List.map_cons,
        List.sum_cons]
      ring

/-- Reading a key from a cons cell of the association-list model. -/
theorem getPair_cons (p : String × (ℕ × ℕ)) (rest : List (String × (ℕ × ℕ))) (q : String) :
    TasksReportC.getPair (p :: rest) q =
      if p.1 == q then p.2 else TasksReportC.getPair rest q := by
  by_cases h : p.1 == q
  · simp [TasksReportC.getPair, List.find?, h]
  · simp [TasksReportC.getPair, List.find?, h]

/-- Reading a key after one `clientTasks` update: the updated key is
incremented according to the status, all other keys are unchanged. -/
theorem getPair_bumpTask (k : String) (st : TasksReportC.TaskStatus) (q : String) :
    ∀ m : List (String × (ℕ × ℕ)),
      TasksReportC.getPair (TasksReportC.bumpTask m k st) q =
        if q = k then TasksReportC.incrStatus (TasksReportC.getPair m k) st
        else TasksReportC.getPair m q := by
  intro m
  induction m with
  | nil =>
    by_cases h : q = k
    · subst h
      simp [TasksReportC.bumpTask, getPair_cons, TasksReportC.getPair, List.find?]
    · have hkq : (k == q) = false := by
        simp only [beq_eq_false_iff_ne, ne_eq]
        exact fun hh => h hh.symm
      simp [TasksReportC.bumpTask, getPair_cons, TasksReportC.getPair, List.find?, hkq, h]
  | cons p rest ih =>
    by_cases hpk : (p.1 == k) = true
    · have hpk' : p.1 = k := beq_iff_eq.mp hpk
      simp only [TasksReportC.bumpTask, if_pos hpk]
      by_cases hqk : q = k
      · subst hqk
        have hpq : (p.1 == q) = true := beq_iff_eq.mpr hpk'
        simp [getPair_cons, hpq]
      · have hpq : (p.1 == q) = false := by
          simp only [beq_eq_false_iff_ne, ne_eq, hpk']
          exact fun hh => hqk hh.symm
        simp [getPair_cons, hpq, hqk]
    · have hpk2 : (p.1 == k) = false := by simpa using hpk
      simp only [TasksReportC.bumpTask, hpk2, Bool.false_eq_true, if_false]
      by_cases hpq : (p.1 == q) = true
      · have hqk : ¬ q = k := by
          have h1 : p.1 = q := beq_iff_eq.mp hpq
          intro hh
          exact absurd (h1.trans hh) (by simpa using hpk)
        simp [getPair_cons, hpq, hqk]
      · have hpq2 : (p.1 == q) = false := by simpa using hpq
        by_cases hqk : q = k
        · subst hqk
          simp [getPair_cons, hpq2, ih, hpk2]
        · simp [getPair_cons, hpq2, ih, hqk]

/-- Folding tasks into the `clientTasks` object: for every client key, the
completed and pending counters count exactly that client's completed and
pending tasks. -/
theorem clientTasks_counts_aux :
    ∀ (l : List TasksReportC.Task) (m : List (String × (ℕ × ℕ))) (q : String),
      TasksReportC.getPair
          (l.foldl (fun m task => TasksReportC.bumpTask m task.clientId task.status) m) q =
        ((TasksReportC.getPair m q).1 +
            (l.filter
              (fun t => t.clientId == q && TasksReportC.isCompleted t.status)).length,
          (TasksReportC.getPair m q).2 +
            (l.filter
              (fun t => t.clientId == q && TasksReportC.isPending t.status)).length) := by
  intro l
  induction l with
  | nil => intro m q; simp
  | cons t rest ih =>
    intro m q
    simp only [List.foldl_cons, ih, getPair_bumpTask, List.filter_cons]
    by_cases hq : (t.clientId == q) = true
    · have hq' : q = t.clientId := (beq_iff_eq.mp hq).symm
      cases hst : t.status
      · simp [hq', hq, hst, TasksReportC.isCompleted, TasksReportC.isPending,
          TasksReportC.incrStatus]
        omega
      · simp [hq', hq, hst, TasksReportC.isCompleted, TasksReportC.isPending,
          TasksReportC.incrStatus]
        omega
    · have hq2 : (t.clientId == q) = false := by simpa using hq
      have hqt : ¬ q = t.clientId := by
        intro hh
        exact absurd (beq_iff_eq.mpr hh.symm) (by simpa using hq)
      simp [hq2, hqt]

/-- A client's completed and pending task counts add up to the number of
that client's tasks, since every task status is `pending` or `completed`. -/
theorem filter_status_split (q : String) :
    ∀ l : List TasksReportC.Task,
      (l.filter (fun t => t.clientId == q && TasksReportC.isCompleted t.status)).length +
        (l.filter (fun t => t.clientId == q && TasksReportC.isPending t.status)).length =
        (l.filter (fun t => t.clientId == q)).length := by
  have hc1 : TasksReportC.isCompleted TasksReportC.TaskStatus.completed = true := rfl
  have hc2 : TasksReportC.isCompleted TasksReportC.TaskStatus.pending = false := rfl
  have hp1 : TasksReportC.isPending TasksReportC.TaskStatus.completed = false := rfl
  have hp2 : TasksReportC.isPending TasksReportC.TaskStatus.pending = true := rfl
  intro l
  induction l with
  | nil => simp
  | cons t rest ih =>
    cases hst : t.status <;> by_cases hq : (t.clientId == q) = true <;>
      simp only [List.filter_cons, hst, hq, hc1, hc2, hp1, hp2, Bool.true_and,
        Bool.false_and, Bool.and_true, Bool.and_false, Bool.false_eq_true, if_false,
        if_true, List.length_cons] <;> omega

/-- C4: the report groupings are partition homomorphisms.  The per-client
hours of `calculateReport` sum to `totalHours`; the per-client counts and
amounts of the `clientInvoices` grouping sum to the invoice count and the
total billed amount; and for every client, the completed and pending
counters of `getTasksByClient` count exactly that client's tasks, so they
add up to that client's total. -/
theorem report_grouping_partition :
    (∀ timeEntries : List TimeReport.TimeEntry,
      ((TimeReport.clientHours timeEntries).map Prod.snd).sum =
        TimeReport.totalHours timeEntries) ∧
    (∀ invoices : List ReportUtils.Invoice,
      ((ReportUtils.clientInvoices invoices).map (fun p => p.2.1)).sum =
          invoices.length ∧
        ((ReportUtils.clientInvoices invoices).map (fun p => p.2.2)).sum =
          ReportUtils.totalAmount invoices) ∧
    (∀ (tasks : List TasksReportC.Task) (clientId : String),
      (TasksReportC.getPair (TasksReportC.clientTasks tasks) clientId).1 =
          (tasks.filter
            (fun t => t.clientId == clientId && TasksReportC.isCompleted t.status)).length ∧
        (TasksReportC.getPair (TasksReportC.clientTasks tasks) clientId).2 =
          (tasks.filter
            (fun t => t.clientId == clientId && TasksReportC.isPending t.status)).length ∧
        (TasksReportC.getPair (TasksReportC.clientTasks tasks) clientId).1 +
            (TasksReportC.getPair (TasksReportC.clientTasks tasks) clientId).2 =
          (tasks.filter (fun t => t.clientId == clientId)).length) := by
  refine ⟨?_, ?_, ?_⟩
  · intro timeEntries
    simp only [TimeReport.clientHours, TimeReport.totalHours, clientHours_sum_aux,
      foldl_add_map_sum (fun e : TimeReport.TimeEntry => e.hours)]
    simp
  · intro invoices
    constructor
    · simpa using (clientInvoices_sums_aux invoices []).1
    · have h2 := (clientInvoices_sums_aux invoices []).2
      simp only [ReportUtils.clientInvoices, ReportUtils.totalAmount,
        foldl_add_map_sum (fun i : ReportUtils.Invoice => i.amount)]
      simpa using h2
  · intro tasks clientId
    have h := clientTasks_counts_aux tasks [] clientId
    have h1 : (TasksReportC.getPair (TasksReportC.clientTasks tasks) clientId).1 =
        (tasks.filter
          (fun t => t.clientId == clientId && TasksReportC.isCompleted t.status)).length := by
      rw [TasksReportC.clientTasks, h]
      simp [TasksReportC.getPair, List.find?]
    have h2 : (TasksReportC.getPair (TasksReportC.clientTasks tasks) clientId).2 =
        (tasks.filter
          (fun t => t.clientId == clientId && TasksReportC.isPending t.status)).length := by
      rw [TasksReportC.clientTasks, h]
      simp [TasksReportC.getPair, List.find?]
    exact ⟨h1, h2, by rw [h1, h2, filter_status_split]⟩

/-! ## C5 -/

/-- C5: the filter effect of the invoices page leaves the underlying
`invoices` list unchanged and sets `filteredInvoices` to exactly the
invoices that simultaneously satisfy the status filter (equal status or
`all`), the client filter (equal clientId or `all`) and the search filter
(case-insensitive containment in the invoice number or client name, or an
empty search text). -/
theorem filterEffect_spec :
    ∀ s : InvoicesPage.PageState,
      (InvoicesPage.filterEffect s).invoices = s.invoices ∧
      (InvoicesPage.filterEffect s).filteredInvoices =
        s.invoices.filter (fun inv =>
          (s.statusFilter == "all" || inv.status == s.statusFilter) &&
          ((s.clientFilter == "all" || inv.clientId == s.clientFilter) &&
            (s.searchText == "" || InvoicesPage.matchesSearch inv s.searchText))) := by
  intro s
  refine ⟨rfl, ?_⟩
  show InvoicesPage.computeFiltered s.statusFilter s.clientFilter s.searchText s.invoices = _
  by_cases h1 : s.statusFilter = "all" <;> by_cases h2 : s.clientFilter = "all" <;>
    by_cases h3 : s.searchText = "" <;>
    (first
      | have e1 : (s.statusFilter == "all") = true := beq_iff_eq.mpr h1
      | have e1 : (s.statusFilter == "all") = false := beq_eq_false_iff_ne.mpr h1) <;>
    (first
      | have e2 : (s.clientFilter == "all") = true := beq_iff_eq.mpr h2
      | have e2 : (s.clientFilter == "all") = false := beq_eq_false_iff_ne.mpr h2) <;>
    (first
      | have e3 : (s.searchText == "") = true := beq_iff_eq.mpr h3
      | have e3 : (s.searchText == "") = false := beq_eq_false_iff_ne.mpr h3) <;>
    simp [InvoicesPage.computeFiltered, h1, h2, h3, e1, e2, e3, List.filter_filter,
      Bool.and_assoc, Bool.and_comm, Bool.and_left_comm]

/-! ## C3 -/

/-- C3: the dashboard computes `hoursTracked` as the sum of the `hours`
fields (0 when missing) of the current user's `timeTracking` documents dated
on or after the start of the current month, rounded to one decimal place,
and `pendingInvoicesAmount` as the sum of the `total` fields (0 when
missing) of the current user's invoices whose status is `unpaid`. -/
theorem dashboard_aggregation_spec :
    ∀ (timeLogs : List DashboardPage.TimeLogDoc)
      (invoices : List DashboardPage.InvoiceDoc) (uid : String) (startOfMonth : ℤ),
      DashboardPage.hoursTrackedStat timeLogs uid startOfMonth =
        ((DashboardPage.jsRound
          ((((timeLogs.filter
                (fun d => d.userId == uid && decide (startOfMonth ≤ d.date))).map
              (fun d => d.hours.getD 0)).sum) * 10) : ℚ)) / 10 ∧
      DashboardPage.pendingInvoicesAmount invoices uid =
        ((invoices.filter (fun d => d.userId == uid && d.status == "unpaid")).map
          (fun d => d.total.getD 0)).sum := by
  intro timeLogs invoices uid startOfMonth
  constructor
  · simp only [DashboardPage.hoursTrackedStat, DashboardPage.hoursTrackedRaw,
      foldl_add_map_sum (fun d : DashboardPage.TimeLogDoc => d.hours.getD 0),
      List.filter_filter, zero_add]
    have hcomm :
        timeLogs.filter (fun a => decide (startOfMonth ≤ a.date) && a.userId == uid) =
          timeLogs.filter (fun d => d.userId == uid && decide (startOfMonth ≤ d.date)) :=
      List.filter_congr (fun a _ => Bool.and_comm _ _)
    rw [hcomm]
  · simp only [DashboardPage.pendingInvoicesAmount,
      foldl_add_map_sum (fun d : DashboardPage.InvoiceDoc => d.total.getD 0), zero_add]

/-! ## C9 -/

/-- The `maxNumber` reduction never decreases the accumulator. -/
theorem maxStep_le (a : ℤ) (inv : InvoicesPage.Invoice) :
    a ≤ InvoicesPage.maxStep a inv := by
  unfold InvoicesPage.maxStep
  cases h : InvoicesPage.numericSuffix inv with
  | none => simp
  | some n =>
    simp only []
    split <;> omega

/-- The `maxNumber` fold never goes below its starting accumulator. -/
theorem foldl_maxStep_mono :
    ∀ (l : List InvoicesPage.Invoice) (a : ℤ), a ≤ l.foldl InvoicesPage.maxStep a := by
  intro l
  induction l with
  | nil => intro a; simp
  | cons x t ih =>
    intro a
    exact le_trans (maxStep_le a x) (ih (InvoicesPage.maxStep a x))

/-- The `maxNumber` fold dominates every parseable suffix in the list. -/
theorem foldl_maxStep_bound :
    ∀ (l : List InvoicesPage.Invoice) (a : ℤ) (inv : InvoicesPage.Invoice) (n : ℤ),
      inv ∈ l → InvoicesPage.numericSuffix inv = some n →
        n ≤ l.foldl InvoicesPage.maxStep a := by
  intro l
  induction l with
  | nil => intro a inv n hmem; exact absurd hmem (List.not_mem_nil inv)
  | cons x t ih =>
    intro a inv n hmem hsuf
    rcases List.mem_cons.mp hmem with hx | ht
    · subst hx
      have hstep : n ≤ InvoicesPage.maxStep a inv := by
        unfold InvoicesPage.maxStep
        rw [hsuf]
        show n ≤ if n > a then n else a
        split <;> omega
      exact le_trans hstep (foldl_maxStep_mono t (InvoicesPage.maxStep a inv))
    · exact ih (InvoicesPage.maxStep a x) inv n ht hsuf

/-- The `maxNumber` fold either returns its starting accumulator or a value
that is the parseable suffix of some invoice in the list. -/
theorem foldl_maxStep_achieved :
    ∀ (l : List InvoicesPage.Invoice) (a : ℤ),
      l.foldl InvoicesPage.maxStep a = a ∨
        ∃ inv ∈ l, InvoicesPage.numericSuffix inv = some (l.foldl InvoicesPage.maxStep a) := by
  intro l
  induction l with
  | nil => intro a; left; rfl
  | cons x t ih =>
    intro a
    rcases ih (InvoicesPage.maxStep a x) with h | ⟨inv, hmem, hsuf⟩
    · rw [List.foldl_cons, h]
      unfold InvoicesPage.maxStep
      cases hs : InvoicesPage.numericSuffix x with
      | none => left; rfl
      | some n =>
        simp only []
        split
        · right
          refine ⟨x, List.mem_cons_self x t, ?_⟩
          rw [hs]
        · left; rfl
    · right
      exact ⟨inv, List.mem_cons_of_mem x hmem, by rw [List.foldl_cons]; exact hsuf⟩

/-- C9: `generateInvoiceNumber` returns `INV-` followed by the four-digit
zero-padded successor of the maximum parseable numeric suffix of the
existing invoice numbers (unparseable suffixes are skipped by the `NaN`
comparison), its suffix strictly exceeds every parseable existing suffix,
and for an empty list it returns `INV-0001`. -/
theorem generateInvoiceNumber_spec :
    InvoicesPage.generateInvoiceNumber [] = "INV-0001" ∧
    (∀ invoices : List InvoicesPage.Invoice,
      InvoicesPage.generateInvoiceNumber invoices =
        "INV-" ++
          InvoicesPage.padStart (toString (InvoicesPage.maxNumber invoices + 1)) 4 '0') ∧
    (∀ (invoices : List InvoicesPage.Invoice) (inv : InvoicesPage.Invoice) (n : ℤ),
      inv ∈ invoices → InvoicesPage.numericSuffix inv = some n →
        n < InvoicesPage.maxNumber invoices + 1) ∧
    (∀ invoices : List InvoicesPage.Invoice,
      InvoicesPage.maxNumber invoices = 0 ∨
        ∃ inv ∈ invoices,
          InvoicesPage.numericSuffix inv = some (InvoicesPage.maxNumber invoices)) := by
  refine ⟨by decide, fun invoices => rfl, ?_, ?_⟩
  · intro invoices inv n hmem hsuf
    have := foldl_maxStep_bound invoices 0 inv n hmem hsuf
    unfold InvoicesPage.maxNumber
    omega
  · intro invoices
    exact foldl_maxStep_achieved invoices 0

/-- C9 (witness): one parseable and one unparseable invoice number. -/
theorem generateInvoiceNumber_spec_witness :
    (7 : ℤ) <
      InvoicesPage.maxNumber
        [{ id := "1"
           userId := "u"
           invoiceNumber := "INV-0007"
           clientId := "c"
           clientName := none
           items := []
           total := 0
           status := "Unpaid"
           dueDate := 0
           createdAt := 0 },
         { id := "2"
           userId := "u"
           invoiceNumber := "draft"
           clientId := "c"
           clientName := none
           items := []
           total := 0
           status := "Unpaid"
           dueDate := 0
           createdAt := 0 }] + 1 :=
  generateInvoiceNumber_spec.2.2.1
    [{ id := "1"
       userId := "u"
       invoiceNumber := "INV-0007"
       clientId := "c"
       clientName := none
       items := []
       total := 0
       status := "Unpaid"
       dueDate := 0
       createdAt := 0 },
     { id := "2"
       userId := "u"
       invoiceNumber := "draft"
       clientId := "c"
       clientName := none
       items := []
       total := 0
       status := "Unpaid"
       dueDate := 0
       createdAt := 0 }]
    { id := "1"
      userId := "u"
      invoiceNumber := "INV-0007"
      clientId := "c"
      clientName := none
      items := []
      total := 0
      status := "Unpaid"
      dueDate := 0
      createdAt := 0 }
    7 (by simp) (by decide)

/-! ## C1 -/

/-- C1 (counterexample): the time-tracking page's `fetchClients` query has
no `userId` filter, so another user's client document lands in the page
state, and removing the other user's documents changes the fetched result
(a two-run violation for the current user `user-a`). -/
theorem fetchClients_returns_other_users_documents :
    ({ id := "c2", name := "Beta" } : TimeTrackingPage.Client) ∈
      TimeTrackingPage.fetchClients
        [{ id := "c1", userId := "user-a", name := "Alpha" },
         { id := "c2", userId := "user-b", name := "Beta" }] ∧
    TimeTrackingPage.fetchClients
        [{ id := "c1", userId := "user-a", name := "Alpha" },
         { id := "c2", userId := "user-b", name := "Beta" }] ≠
      TimeTrackingPage.fetchClients
        (([{ id := "c1", userId := "user-a", name := "Alpha" },
           { id := "c2", userId := "user-b", name := "Beta" }] :
            List TimeTrackingPage.ClientDoc).filter
          (fun d => d.userId == "user-a")) := by
  constructor
  · decide
  · decide

/-- C1 (amended): the `timeTracking` and `invoices` fetches and the invoices
page's `clients` fetch return exactly the current user's documents, and
their result is unchanged by changes to other users' documents (two-run
property); the time-tracking page's `clients` and `tasks` fetches instead
return one entry for every document of the collection regardless of its
`userId`. -/
theorem userScoped_fetches_isolated :
    (∀ (remote : List InvoicesPage.Invoice) (uid : String) (d : InvoicesPage.Invoice),
      d ∈ InvoicesPage.fetchInvoices remote uid ↔ d ∈ remote ∧ d.userId = uid) ∧
    (∀ (remote remote2 : List InvoicesPage.Invoice) (uid : String),
      remote.filter (fun d => d.userId == uid) = remote2.filter (fun d => d.userId == uid) →
        InvoicesPage.fetchInvoices remote uid = InvoicesPage.fetchInvoices remote2 uid) ∧
    (∀ (remote : List InvoicesPage.Client) (uid : String) (d : InvoicesPage.Client),
      d ∈ InvoicesPage.fetchClients remote uid ↔ d ∈ remote ∧ d.userId = uid) ∧
    (∀ (remote remote2 : List InvoicesPage.Client) (uid : String),
      remote.filter (fun d => d.userId == uid) = remote2.filter (fun d => d.userId == uid) →
        InvoicesPage.fetchClients remote uid = InvoicesPage.fetchClients remote2 uid) ∧
    (∀ (remote : List TimeTrackingPage.TimeEntryDoc) (uid : String)
        (d : TimeTrackingPage.TimeEntryDoc),
      d ∈ TimeTrackingPage.fetchTimeEntries remote uid ↔ d ∈ remote ∧ d.userId = uid) ∧
    (∀ (remote remote2 : List TimeTrackingPage.TimeEntryDoc) (uid : String),
      remote.filter (fun d => d.userId == uid) = remote2.filter (fun d => d.userId == uid) →
        TimeTrackingPage.fetchTimeEntries remote uid =
          TimeTrackingPage.fetchTimeEntries remote2 uid) ∧
    (∀ remote : List TimeTrackingPage.ClientDoc,
      (TimeTrackingPage.fetchClients remote).length = remote.length) ∧
    (∀ remote : List TimeTrackingPage.TaskDoc,
      (TimeTrackingPage.fetchTasks remote).length = remote.length) := by
  refine ⟨?_, ?_, ?_, ?_, ?_, ?_, ?_, ?_⟩
  · intro remote uid d
    simp [InvoicesPage.fetchInvoices, List.mem_filter]
  · intro remote remote2 uid h
    exact h
  · intro remote uid d
    simp [InvoicesPage.fetchClients, List.mem_filter]
  · intro remote remote2 uid h
    exact h
  · intro remote uid d
    simp [TimeTrackingPage.fetchTimeEntries, List.mem_filter]
  · intro remote remote2 uid h
    exact h
  · intro remote
    simp [TimeTrackingPage.fetchClients]
  · intro remote
    simp [TimeTrackingPage.fetchTasks]

/-- C1 (witness): adding another user's invoice does not change the result
of the user-scoped invoices fetch. -/
theorem userScoped_fetches_isolated_witness :
    InvoicesPage.fetchInvoices
        [{ id := "i1"
           userId := "u"
           invoiceNumber := "INV-0001"
           clientId := "c"
           clientName := none
           items := []
           total := 0
           status := "Unpaid"
           dueDate := 0
           createdAt := 0 }] "u" =
      InvoicesPage.fetchInvoices
        [{ id := "i1"
           userId := "u"
           invoiceNumber := "INV-0001"
           clientId := "c"
           clientName := none
           items := []
           total := 0
           status := "Unpaid"
           dueDate := 0
           createdAt := 0 },
         { id := "i2"
           userId := "v"
           invoiceNumber := "INV-0009"
           clientId := "c"
           clientName := none
           items := []
           total := 0
           status := "Paid"
           dueDate := 0
           createdAt := 0 }] "u" :=
  userScoped_fetches_isolated.2.1
    [{ id := "i1"
       userId := "u"
       invoiceNumber := "INV-0001"
       clientId := "c"
       clientName := none
       items := []
       total := 0
       status := "Unpaid"
       dueDate := 0
       createdAt := 0 }]
    [{ id := "i1"
       userId := "u"
       invoiceNumber := "INV-0001"
       clientId := "c"
       clientName := none
       items := []
       total := 0
       status := "Unpaid"
       dueDate := 0
       createdAt := 0 },
     { id := "i2"
       userId := "v"
       invoiceNumber := "INV-0009"
       clientId := "c"
       clientName := none
       items := []
       total := 0
       status := "Paid"
       dueDate := 0
       createdAt := 0 }] "u" (by decide)
